import Mathlib

/- Verification development for the business-intelligence dashboard
   serverless handlers. The JavaScript sources are shallowly embedded:
   JavaScript numbers are modelled as exact rationals, strings as Lean
   strings or as lists of characters, absent or null fields as Option
   values, and upstream network outcomes as explicit inductive data.
   Each definition carries a pointer to the source location it embeds. -/

/-! Section 1: sentence splitting (src/api/earnings-analysis.js, lines 93 to 105,
    splitIntoSentences, and lines 150 to 152 of analyzeSentimentDetailed). -/

/-- Character class of the regular expression \s as used by the split
    (common whitespace characters; the exotic Unicode space characters,
    irrelevant to the claims, are omitted). -/
def isWs (c : Char) : Bool :=
  c = ' ' || c = '\t' || c = '\n' || c = '\r' || c = '\x0b' || c = '\x0c'

/-- Sentence-terminal punctuation class of the regular expression [.!?]. -/
def isTermPunct (c : Char) : Bool :=
  c = '.' || c = '!' || c = '?'

/-- Embeds text.replace of the pattern: a terminal punctuation character
    followed by a greedy run of whitespace is rewritten to the punctuation
    character followed by a bar. The Boolean flag records that the scanner
    is still inside a matched whitespace run being consumed. -/
def replAux : Bool → List Char → List Char
  | _, [] => []
  | inWs, c :: rest =>
    if inWs && isWs c then replAux true rest
    else if isTermPunct c && (match rest with | d :: _ => isWs d | [] => false) then
      c :: '|' :: replAux true rest
    else c :: replAux false rest

/-- The replace step of splitIntoSentences (line 99). -/
def replaceSeps (l : List Char) : List Char := replAux false l

/-- Accumulator-based split on the bar character, as String.prototype.split. -/
def splitOnBarAux : List Char → List Char → List (List Char)
  | [], acc => [acc.reverse]
  | c :: rest, acc =>
    if c = '|' then acc.reverse :: splitOnBarAux rest []
    else splitOnBarAux rest (c :: acc)

/-- The split step of splitIntoSentences (line 100). -/
def splitOnBar (l : List Char) : List (List Char) := splitOnBarAux l []

/-- JavaScript String.prototype.trim on the whitespace class above. -/
def trimChars (l : List Char) : List Char :=
  ((l.dropWhile isWs).reverse.dropWhile isWs).reverse

/-- Embeds splitIntoSentences (lines 93 to 105): empty input short-circuits
    to the empty list, otherwise replace, split, trim each fragment and keep
    only fragments whose length exceeds 20. -/
def splitIntoSentences (text : List Char) : List (List Char) :=
  if text.isEmpty then []
  else ((splitOnBar (replaceSeps text)).map trimChars).filter fun s => 20 < s.length

/-- Embeds sentences.slice(0, 20) of analyzeSentimentDetailed (line 151):
    the sample of sentences actually submitted for scoring. -/
def sentencesToAnalyze (text : List Char) : List (List Char) :=
  (splitIntoSentences text).take 20

/-! Section 2: sentiment aggregation (src/api/earnings-analysis.js,
    lines 174 to 228 of analyzeSentimentDetailed). -/

/-- Sentiment labels returned by the upstream sentiment endpoint. -/
inductive Sentiment
  | POSITIVE
  | NEGATIVE
  | NEUTRAL
deriving DecidableEq

/-- One scored sentence (the object built by analyzeSentenceSentiment). -/
structure SentimentSample where
  sentence : String
  sentiment : Sentiment
  score : ℚ
deriving DecidableEq

/-- The overall block of the aggregate. -/
structure OverallInfo where
  sentiment : Sentiment
  score : ℚ
deriving DecidableEq

/-- The breakdown block of the aggregate. -/
structure BreakdownInfo where
  positive : ℕ
  negative : ℕ
  neutral : ℕ
  total : ℕ
deriving DecidableEq

/-- The highlights block of the aggregate. -/
structure HighlightInfo where
  mostPositive : Option SentimentSample
  mostNegative : Option SentimentSample
deriving DecidableEq

/-- The percentage block of the aggregate (the sentiment ratio field of
    the source, renamed here; the three values are rounded independently). -/
structure SentimentShares where
  positivePercent : ℤ
  negativePercent : ℤ
  neutralPercent : ℤ
deriving DecidableEq

/-- The aggregate object built at lines 199 to 219. -/
structure SentimentAggregate where
  overall : OverallInfo
  breakdown : BreakdownInfo
  highlights : HighlightInfo
  sentimentShares : SentimentShares
deriving DecidableEq

/-- Number of samples labelled POSITIVE (line 175). -/
def countPositive (rs : List SentimentSample) : ℕ :=
  (rs.filter fun r => decide (r.sentiment = Sentiment.POSITIVE)).length

/-- Number of samples labelled NEGATIVE (line 176). -/
def countNegative (rs : List SentimentSample) : ℕ :=
  (rs.filter fun r => decide (r.sentiment = Sentiment.NEGATIVE)).length

/-- Number of samples labelled NEUTRAL (line 177). -/
def countNeutral (rs : List SentimentSample) : ℕ :=
  (rs.filter fun r => decide (r.sentiment = Sentiment.NEUTRAL)).length

/-- The reduce that sums all scores (line 189). -/
def sumScores (rs : List SentimentSample) : ℚ :=
  rs.foldl (fun sum r => sum + r.score) 0

/-- avgScore of line 189: sum of scores divided by the number of samples. -/
def avgScoreOf (rs : List SentimentSample) : ℚ :=
  sumScores rs / (rs.length : ℚ)

/-- The overall sentiment decision of lines 192 to 197. -/
def overallSentimentOf (rs : List SentimentSample) : Sentiment :=
  if countPositive rs > countNegative rs ∧ avgScoreOf rs > 11/20 then Sentiment.POSITIVE
  else if countNegative rs > countPositive rs ∧ avgScoreOf rs < 9/20 then Sentiment.NEGATIVE
  else Sentiment.NEUTRAL

/-- The reduce of lines 180 to 182: sample with the strictly highest score,
    earlier samples win ties. -/
def mostPositiveOf : List SentimentSample → Option SentimentSample
  | [] => none
  | x :: xs => some (xs.foldl (fun mx r => if mx.score < r.score then r else mx) x)

/-- The reduce of lines 184 to 186: sample with the strictly lowest score,
    earlier samples win ties. -/
def mostNegativeOf : List SentimentSample → Option SentimentSample
  | [] => none
  | x :: xs => some (xs.foldl (fun mn r => if r.score < mn.score then r else mn) x)

/-- Math.round: nearest integer, ties towards positive infinity. -/
def jsRound (x : ℚ) : ℤ := Int.floor (x + 1/2)

/-- The aggregate built at lines 174 to 219 for a non-empty result list
    (the guard of line 170 is in aggregateResults below). -/
def aggregateCore (results : List SentimentSample) : SentimentAggregate :=
  { overall := ⟨overallSentimentOf results, avgScoreOf results⟩
    breakdown := ⟨countPositive results, countNegative results, countNeutral results,
                  results.length⟩
    highlights := ⟨mostPositiveOf (results.filter fun r => decide (r.sentiment = Sentiment.POSITIVE)),
                   mostNegativeOf (results.filter fun r => decide (r.sentiment = Sentiment.NEGATIVE))⟩
    sentimentShares := ⟨jsRound ((countPositive results : ℚ) / (results.length : ℚ) * 100),
                        jsRound ((countNegative results : ℚ) / (results.length : ℚ) * 100),
                        jsRound ((countNeutral results : ℚ) / (results.length : ℚ) * 100)⟩ }

/-- Aggregation entry point: the guard of line 170 returns null for an empty
    result list, otherwise the aggregate is produced. -/
def aggregateResults (results : List SentimentSample) : Option SentimentAggregate :=
  if results.isEmpty then none else some (aggregateCore results)

/-! Section 3: recommendation engine (src/api/earnings-analysis.js,
    lines 302 to 423, generateRecommendation). -/

/-- Recommendation labels. -/
inductive RecLabel
  | BUY
  | HOLD
  | SELL
deriving DecidableEq

/-- Confidence labels. -/
inductive ConfLabel
  | High
  | Moderate
deriving DecidableEq

/-- Risk labels. -/
inductive RiskLabel
  | Moderate
  | Elevated
deriving DecidableEq

/-- The factors record of lines 303 to 307. -/
structure Factors where
  sentiment : ℤ
  priceTrend : ℤ
  economic : ℤ
deriving DecidableEq

/-- One indicator entry as read by the engine: a numeric value or null,
    and the available flag. -/
structure EngineIndicatorEntry where
  value : Option ℚ
  available : Bool
deriving DecidableEq

/-- The indicators map as read by the engine. Only inflation and
    unemployment are ever accessed; the two other entries of the economics
    payload are carried so that their irrelevance is provable. -/
structure EngineIndicators where
  inflation : Option EngineIndicatorEntry
  unemployment : Option EngineIndicatorEntry
  mortgageRate : Option EngineIndicatorEntry
  interestRate : Option EngineIndicatorEntry
deriving DecidableEq

/-- The economic data argument: the indicators field may be absent. -/
structure EngineEconomicData where
  indicators : Option EngineIndicators
deriving DecidableEq

/-- The result record of lines 413 to 422 (the reasoning strings, the
    summary and the fixed disclaimer string are human-readable prose not
    touched by any claim and are elided). -/
structure RecommendationResult where
  recommendation : RecLabel
  confidence : ConfLabel
  riskLevel : RiskLabel
  score : ℚ
  factors : Factors
deriving DecidableEq

/-- JavaScript numeric coercion applied when comparing a possibly null
    field with a number literal: null compares as 0. -/
def jsNum (v : Option ℚ) : ℚ := v.getD 0

/-- The inflation contribution of lines 353 to 361 to the economic
    sub-score. -/
def inflationContribution (ind : EngineIndicators) : ℚ :=
  match ind.inflation with
  | some e =>
    if e.available then
      (if jsNum e.value < 3 then 1/2 else if jsNum e.value > 5 then -(1/2) else 0)
    else 0
  | none => 0

/-- The unemployment contribution of lines 364 to 372 to the economic
    sub-score. -/
def unemploymentContribution (ind : EngineIndicators) : ℚ :=
  match ind.unemployment with
  | some e =>
    if e.available then
      (if jsNum e.value < 5 then 1/2 else if jsNum e.value > 6 then -(1/2) else 0)
    else 0
  | none => 0

/-- The economic factor of lines 347 to 384: sign of the sub-score; absent
    economic data or absent indicators map leaves the factor at 0. -/
def economicFactor : Option EngineEconomicData → ℤ
  | none => 0
  | some d =>
    match d.indicators with
    | none => 0
    | some ind =>
      if inflationContribution ind + unemploymentContribution ind > 0 then 1
      else if inflationContribution ind + unemploymentContribution ind < 0 then -1
      else 0

/-- The decision cascade of lines 391 to 411, applied in source order to
    the final score. -/
def scoreToVerdict (finalScore : ℚ) : RecLabel × ConfLabel × RiskLabel :=
  if finalScore > 2/5 then (RecLabel.BUY, ConfLabel.High, RiskLabel.Moderate)
  else if finalScore > 0 then (RecLabel.BUY, ConfLabel.Moderate, RiskLabel.Moderate)
  else if finalScore > -(2/5) then (RecLabel.HOLD, ConfLabel.Moderate, RiskLabel.Moderate)
  else (RecLabel.SELL, ConfLabel.Moderate, RiskLabel.Elevated)

/-- Lines 387 to 422 given the computed factors: the weighted final score
    of line 387 and the verdict of the cascade. -/
def recFromFactors (factors : Factors) : RecommendationResult :=
  { recommendation := (scoreToVerdict ((factors.sentiment : ℚ) * (2/5)
      + (factors.priceTrend : ℚ) * (3/10) + (factors.economic : ℚ) * (3/10))).1
    confidence := (scoreToVerdict ((factors.sentiment : ℚ) * (2/5)
      + (factors.priceTrend : ℚ) * (3/10) + (factors.economic : ℚ) * (3/10))).2.1
    riskLevel := (scoreToVerdict ((factors.sentiment : ℚ) * (2/5)
      + (factors.priceTrend : ℚ) * (3/10) + (factors.economic : ℚ) * (3/10))).2.2
    score := (factors.sentiment : ℚ) * (2/5)
      + (factors.priceTrend : ℚ) * (3/10) + (factors.economic : ℚ) * (3/10)
    factors := factors }

/-- One entry of the transcript_split array; role or text may be null or
    missing. -/
structure SpeakerTurn where
  role : Option String
  text : Option String
deriving DecidableEq

/-- Shape of the transcript_split field. A string value is parsed with
    JSON.parse inside the try of lines 244 to 253; the parse outcome is
    part of the input shape here because the parser is a JavaScript
    builtin: a string may fail to parse (strBad), parse to an array of
    items possibly containing nulls (strArr), or parse to a non-array
    value (strOther). A non-string non-array field value is otherVal. -/
inductive SplitField
  | absent
  | strBad
  | strArr (items : List (Option SpeakerTurn))
  | strOther
  | arr (items : List (Option SpeakerTurn))
  | otherVal
deriving DecidableEq

/-- The transcript record as consumed by extractKeyStatements: the
    transcript_split field and the raw transcript text field (none models
    both a missing field and a non-string value, which the typeof check of
    line 285 treats alike). -/
structure TranscriptRec where
  transcript_split : SplitField
  transcript : Option String
deriving DecidableEq

/-- The value transcriptSplit holds after lines 243 to 256: an array if
    the field was an array or a string parsing to an array, otherwise
    nothing usable. -/
def parsedSplitItems : SplitField → Option (List (Option SpeakerTurn))
  | SplitField.strArr items => some items
  | SplitField.arr items => some items
  | _ => none

/-- The fixed executive role markers of line 261. -/
def keyRoles : List String := ["Chief Executive Officer", "Chief Financial Officer", "Chairman"]

/-- Substring containment, as String.prototype.includes. -/
def containsSub (needle : List Char) : List Char → Bool
  | [] => needle.isPrefixOf []
  | c :: t => needle.isPrefixOf (c :: t) || containsSub needle t

/-- The role test of line 263: some key role is a substring of the role. -/
def roleQualifies (r : String) : Bool :=
  keyRoles.any fun k => containsSub k.toList r.toList

/-- The two filters and the map of lines 262 to 274 fused: keep the text of
    every non-null item whose role is truthy and contains a key role and
    whose text is truthy. -/
def execTexts (items : List (Option SpeakerTurn)) : List String :=
  items.filterMap fun it =>
    match it with
    | none => none
    | some turn =>
      match turn.role with
      | none => none
      | some r =>
        if r ≠ "" ∧ roleQualifies r = true then
          match turn.text with
          | none => none
          | some tx => if tx ≠ "" then some tx else none
        else none

/-- Array.prototype.join with a single space separator (line 274). -/
def joinSpace : List String → String
  | [] => ""
  | [s] => s
  | s :: rest => s ++ " " ++ joinSpace rest

/-- The substring of the last n characters (lines 287 to 290). -/
def lastChars (n : ℕ) (s : String) : String :=
  String.mk (s.data.drop (s.data.length - n))

/-- The raw transcript fallback of lines 285 to 296: the last 1000
    characters of a truthy string transcript field, otherwise the empty
    string. -/
def rawFallbackOf (rec : TranscriptRec) : String :=
  match rec.transcript with
  | some s => if s ≠ "" then lastChars 1000 s else ""
  | none => ""

/-- The slice of lines 268 to 270: the last three executive statements when
    more than three qualify, otherwise all of them. -/
def relevantOf (executive : List String) : List String :=
  if executive.length > 3 then executive.drop (executive.length - 3) else executive

/-- Embeds extractKeyStatements (lines 233 to 297). -/
def extractKeyStatements : Option TranscriptRec → String
  | none => ""
  | some rec =>
    match parsedSplitItems rec.transcript_split with
    | some items =>
      if items.length > 0 then
        if joinSpace (relevantOf (execTexts items)) ≠ "" then
          joinSpace (relevantOf (execTexts items))
        else rawFallbackOf rec
      else rawFallbackOf rec
    | none => rawFallbackOf rec

/-- JavaScript property access on a possibly absent string value: absent
    access inside a method call position would raise a TypeError. -/
def jsGetStr : Option String → Except String String
  | some s => Except.ok s
  | none => Except.error "TypeError"

/-- Error-aware rendering of the filter predicate of line 263: the closure
    re-reads the role of the item before calling includes on it, so the
    access goes through jsGetStr; the short-circuit guards of the source
    keep the access safe. -/
def execTextsChecked : List (Option SpeakerTurn) → Except String (List String)
  | [] => Except.ok []
  | it :: rest =>
    let keepE : Except String (Option String) :=
      match it with
      | none => Except.ok none
      | some turn =>
        match turn.role with
        | none => Except.ok none
        | some r =>
          if r ≠ "" then
            match jsGetStr turn.role with
            | Except.error e => Except.error e
            | Except.ok r2 =>
              if roleQualifies r2 = true then
                match turn.text with
                | none => Except.ok none
                | some tx => if tx ≠ "" then Except.ok (some tx) else Except.ok none
              else Except.ok none
          else Except.ok none
    match keepE with
    | Except.error e => Except.error e
    | Except.ok keep =>
      match execTextsChecked rest with
      | Except.error e => Except.error e
      | Except.ok tail =>
        Except.ok (match keep with | some tx => tx :: tail | none => tail)

/-- Error-aware rendering of extractKeyStatements: every place where the
    source dereferences a possibly null value is guarded, so the function
    is shown below to never produce an error. -/
def extractKeyStatementsChecked : Option TranscriptRec → Except String String
  | none => Except.ok ""
  | some rec =>
    match parsedSplitItems rec.transcript_split with
    | some items =>
      if items.length > 0 then
        match execTextsChecked items with
        | Except.error e => Except.error e
        | Except.ok executive =>
          if joinSpace (relevantOf executive) ≠ "" then
            Except.ok (joinSpace (relevantOf executive))
          else Except.ok (rawFallbackOf rec)
      else Except.ok (rawFallbackOf rec)
    | none => Except.ok (rawFallbackOf rec)

/-! Section 6: upstream client fetch classification (fetchFromApiNinjas,
    src/api/economics.js lines 23 to 69 and src/api/earnings-analysis.js
    lines 24 to 67). -/

/-- Body of an HTTP response as far as classification cares: the collected
    text either parses as JSON to some payload or it does not (the JSON
    parser is a JavaScript builtin, so the parse outcome is part of the
    input shape). -/
inductive BodyKind
  | parsable (payload : String)
  | malformed
deriving DecidableEq

/-- Outcome of the single transport attempt a fetch call makes: a response
    with a status code and a body, a transport-level failure, or the
    timeout firing. -/
inductive TransportEvent
  | response (status : ℕ) (body : BodyKind)
  | networkFailure
  | timedOut
deriving DecidableEq

/-- How one fetch call settles: the promise resolves with a success record,
    resolves with a failure record carrying the status code and a message,
    or rejects (thrown / rejected promise). -/
inductive FetchResult
  | ok (payload : String) (statusCode : ℕ)
  | fail (statusCode : ℕ) (message : String)
  | thrown (message : String)
deriving DecidableEq

/-- Embeds fetchFromApiNinjas of src/api/economics.js (lines 41 to 55 for
    the status dispatch, 58 to 65 for transport failures): status 200 with
    parseable JSON resolves success; 200 with a malformed body rejects; 404
    resolves a failure with the dedicated message of line 51; any other
    status resolves the generic failure of line 53; transport errors and
    timeouts reject. The classification is a function of one transport
    event: the client never retries. -/
def fetchClassifyEconomics : TransportEvent → FetchResult
  | TransportEvent.response s b =>
    if s = 200 then
      match b with
      | BodyKind.parsable payload => FetchResult.ok payload 200
      | BodyKind.malformed => FetchResult.thrown "Failed to parse JSON"
    else if s = 404 then FetchResult.fail 404 "Endpoint not available"
    else FetchResult.fail s ("API error: " ++ toString s)
  | TransportEvent.networkFailure => FetchResult.thrown "Network error"
  | TransportEvent.timedOut => FetchResult.thrown "Timeout"

/-- Embeds fetchFromApiNinjas of src/api/earnings-analysis.js (lines 42 to
    53 for the status dispatch, 56 to 63 for transport failures): status
    200 with parseable JSON resolves success; 200 with a malformed body
    rejects; every other status, 404 included, resolves the one generic
    failure of line 51; transport errors and timeouts reject. The
    classification is a function of one transport event: the client never
    retries. -/
def fetchClassifyEarningsAnalysis : TransportEvent → FetchResult
  | TransportEvent.response s b =>
    if s = 200 then
      match b with
      | BodyKind.parsable payload => FetchResult.ok payload 200
      | BodyKind.malformed => FetchResult.thrown "Failed to parse JSON"
    else FetchResult.fail s ("API error: " ++ toString s)
  | TransportEvent.networkFailure => FetchResult.thrown "Network error"
  | TransportEvent.timedOut => FetchResult.thrown "Timeout"

/-! Section 7: economic indicators response (src/api/economics.js,
    lines 250 to 455: the four status helpers and the handler body that
    builds the response). -/

/-- The status sub-object of an indicator entry. -/
structure StatusInfo where
  level : String
  color : String
  label : String
deriving DecidableEq

/-- getInflationStatus (lines 253 to 257). -/
def getInflationStatus (rate : ℚ) : StatusInfo :=
  if rate < 2 then ⟨"good", "green", "Low"⟩
  else if rate < 4 then ⟨"moderate", "yellow", "Moderate"⟩
  else ⟨"concerning", "red", "High"⟩

/-- getUnemploymentStatus (lines 262 to 266). -/
def getUnemploymentStatus (rate : ℚ) : StatusInfo :=
  if rate < 4 then ⟨"good", "green", "Low"⟩
  else if rate < 6 then ⟨"moderate", "yellow", "Moderate"⟩
  else ⟨"concerning", "red", "High"⟩

/-- getInterestRateStatus (lines 271 to 275). -/
def getInterestRateStatus (rate : ℚ) : StatusInfo :=
  if rate < 2 then ⟨"info", "green", "Low"⟩
  else if rate < 4 then ⟨"info", "yellow", "Moderate"⟩
  else ⟨"info", "red", "High"⟩

/-- getMortgageRateStatus (lines 280 to 284). -/
def getMortgageRateStatus (rate : ℚ) : StatusInfo :=
  if rate < 4 then ⟨"good", "green", "Low"⟩
  else if rate < 6 then ⟨"moderate", "yellow", "Moderate"⟩
  else ⟨"concerning", "red", "High"⟩

/-- What each fetcher of src/api/economics.js hands the handler on success:
    a numeric value and a period string. -/
structure RateData where
  value : ℚ
  period : String
deriving DecidableEq

/-- One entry of the indicators object built at lines 339 to 429. -/
structure EconIndicator where
  name : String
  value : Option ℚ
  unit : String
  period : Option String
  status : StatusInfo
  available : Bool
  note : Option String
deriving DecidableEq

/-- The indicators object: it always carries exactly these four entries. -/
structure IndicatorsOut where
  inflation : EconIndicator
  mortgageRate : EconIndicator
  unemployment : EconIndicator
  interestRate : EconIndicator
deriving DecidableEq

/-- The data object of the non-cached success response (lines 437 to 443;
    the lastUpdated timestamp is wall-clock output and is elided). -/
structure EconomicsData where
  indicators : IndicatorsOut
  source : String
  availableCount : ℕ
  totalIndicators : ℕ
deriving DecidableEq

/-- The availableSources list, pushed to in the build order of the handler:
    Inflation, Mortgage Rate, Unemployment, Interest Rate (lines 341 to
    419). -/
def availableSources (inflationData mortgageRateData unemploymentData
    interestRateData : Option RateData) : List String :=
  (match inflationData with | some _ => ["Inflation"] | none => [])
    ++ (match mortgageRateData with | some _ => ["Mortgage Rate"] | none => [])
    ++ (match unemploymentData with | some _ => ["Unemployment"] | none => [])
    ++ (match interestRateData with | some _ => ["Interest Rate"] | none => [])

/-- Embeds the response construction of the economics handler (lines 339
    to 443) from the four fetcher outcomes, in the parameter order of the
    Promise.all of line 332. -/
def buildEconomicsResponse (inflationData interestRateData mortgageRateData
    unemploymentData : Option RateData) : EconomicsData :=
  { indicators :=
      { inflation :=
          match inflationData with
          | some d => ⟨"Inflation Rate", some d.value, "%", some d.period,
              getInflationStatus d.value, true, none⟩
          | none => ⟨"Inflation Rate", none, "%", none,
              ⟨"info", "blue", "N/A"⟩, false, some "Data temporarily unavailable"⟩
        mortgageRate :=
          match mortgageRateData with
          | some d => ⟨"Mortgage Rate (30-yr)", some d.value, "%", some d.period,
              getMortgageRateStatus d.value, true, none⟩
          | none => ⟨"Mortgage Rate (30-yr)", none, "%", none,
              ⟨"info", "blue", "N/A"⟩, false, some "Data temporarily unavailable"⟩
        unemployment :=
          match unemploymentData with
          | some d => ⟨"Unemployment Rate", some d.value, "%", some d.period,
              getUnemploymentStatus d.value, true, none⟩
          | none => ⟨"Unemployment Rate", none, "%", none,
              ⟨"info", "blue", "N/A"⟩, false, some "Data temporarily unavailable"⟩
        interestRate :=
          match interestRateData with
          | some d => ⟨"Fed Interest Rate", some d.value, "%", some d.period,
              getInterestRateStatus d.value, true, none⟩
          | none => ⟨"Fed Interest Rate", none, "%", none,
              ⟨"info", "blue", "N/A"⟩, false, some "Data temporarily unavailable"⟩ }
    source :=
      if (availableSources inflationData mortgageRateData unemploymentData
            interestRateData).length > 0 then
        "API Ninjas (" ++ String.intercalate ", "
          (availableSources inflationData mortgageRateData unemploymentData
            interestRateData) ++ ")"
      else "API Ninjas (checking available endpoints)"
    availableCount :=
      (availableSources inflationData mortgageRateData unemploymentData
        interestRateData).length
    totalIndicators := 4 }

/-! Section 8: helper lemmas. -/

/-- The three sentiment filters partition any sample list. -/
theorem filterPartitionSentiment (rs : List SentimentSample) :
    countPositive rs + countNegative rs + countNeutral rs = rs.length := by
  unfold countPositive countNegative countNeutral
  induction rs with
  | nil => simp
  | cons r t ih =>
    cases h : r.sentiment <;> simp [List.filter_cons, h] <;> omega

/-! Section 9: claim theorems. -/

/-- Claim C4, counterexample: the trimmed fragment of a 20 character text
    has exactly 20 characters, yet splitIntoSentences discards it, so a
    fragment of 20 or more characters does not always qualify. -/
theorem C4_twenty_char_fragment_counterexample :
    (splitOnBar (replaceSeps (String.toList "aaaaaaaaaaaaaaaaaaaa"))).map trimChars
        = [String.toList "aaaaaaaaaaaaaaaaaaaa"]
    ∧ (String.toList "aaaaaaaaaaaaaaaaaaaa").length = 20
    ∧ splitIntoSentences (String.toList "aaaaaaaaaaaaaaaaaaaa") = [] := by
  decide

/-- Claim C4 (amended): the sampler splits on terminal punctuation followed
    by whitespace, keeps only trimmed fragments of strictly more than 20
    characters (fragments of 20 characters or fewer are discarded), and the
    analyzed sample is the first 20 qualifying sentences, hence at most 20,
    all drawn from the qualifying sentences. -/
theorem C4_split_cap_amended :
    ∀ text : List Char,
      (∀ s ∈ splitIntoSentences text, 20 < s.length)
      ∧ sentencesToAnalyze text = (splitIntoSentences text).take 20
      ∧ (sentencesToAnalyze text).length ≤ 20
      ∧ ∀ s ∈ sentencesToAnalyze text, s ∈ splitIntoSentences text := by
  intro text
  refine ⟨?_, rfl, ?_, ?_⟩
  · intro s hs
    unfold splitIntoSentences at hs
    split at hs
    · simp at hs
    · simp only [List.mem_filter, decide_eq_true_eq] at hs
      exact hs.2
  · have h : (sentencesToAnalyze text).length = min 20 (splitIntoSentences text).length := by
      simp [sentencesToAnalyze, List.length_take]
    omega
  · intro s hs
    exact List.take_subset 20 (splitIntoSentences text) hs

/-- Witness for the amended C4 theorem at a concrete text. -/
theorem C4_split_cap_amended_witness :
    String.toList "This sentence is long enough to qualify."
        ∈ splitIntoSentences (String.toList "This sentence is long enough to qualify. Ok.")
    ∧ 20 < (String.toList "This sentence is long enough to qualify.").length :=
  ⟨by decide,
   (C4_split_cap_amended (String.toList "This sentence is long enough to qualify. Ok.")).1
     (String.toList "This sentence is long enough to qualify.") (by decide)⟩

/-- Claim C6: in every aggregate produced from a non-empty sample list, the
    positive, negative and neutral counts sum to the total, and the total
    is the number of analyzed samples. -/
theorem C6_breakdown_partition :
    ∀ (r0 : SentimentSample) (rest : List SentimentSample),
      aggregateResults (r0 :: rest) = some (aggregateCore (r0 :: rest))
      ∧ (aggregateCore (r0 :: rest)).breakdown.positive
          + (aggregateCore (r0 :: rest)).breakdown.negative
          + (aggregateCore (r0 :: rest)).breakdown.neutral
          = (aggregateCore (r0 :: rest)).breakdown.total
      ∧ (aggregateCore (r0 :: rest)).breakdown.total = (r0 :: rest).length := by
  intro r0 rest
  exact ⟨rfl, filterPartitionSentiment (r0 :: rest), rfl⟩

/-- Claim C10: the non-cached success payload of the economics handler
    always carries exactly the four indicator entries, each either
    available with a numeric value or unavailable with a null value;
    totalIndicators is 4 and availableCount counts the available entries. -/
theorem C10_indicator_response_shape :
    ∀ i r m u : Option RateData,
      (((buildEconomicsResponse i r m u).indicators.inflation.available = true
          ∧ ∃ v, (buildEconomicsResponse i r m u).indicators.inflation.value = some v)
        ∨ ((buildEconomicsResponse i r m u).indicators.inflation.available = false
          ∧ (buildEconomicsResponse i r m u).indicators.inflation.value = none))
      ∧ (((buildEconomicsResponse i r m u).indicators.mortgageRate.available = true
          ∧ ∃ v, (buildEconomicsResponse i r m u).indicators.mortgageRate.value = some v)
        ∨ ((buildEconomicsResponse i r m u).indicators.mortgageRate.available = false
          ∧ (buildEconomicsResponse i r m u).indicators.mortgageRate.value = none))
      ∧ (((buildEconomicsResponse i r m u).indicators.unemployment.available = true
          ∧ ∃ v, (buildEconomicsResponse i r m u).indicators.unemployment.value = some v)
        ∨ ((buildEconomicsResponse i r m u).indicators.unemployment.available = false
          ∧ (buildEconomicsResponse i r m u).indicators.unemployment.value = none))
      ∧ (((buildEconomicsResponse i r m u).indicators.interestRate.available = true
          ∧ ∃ v, (buildEconomicsResponse i r m u).indicators.interestRate.value = some v)
        ∨ ((buildEconomicsResponse i r m u).indicators.interestRate.available = false
          ∧ (buildEconomicsResponse i r m u).indicators.interestRate.value = none))
      ∧ (buildEconomicsResponse i r m u).totalIndicators = 4
      ∧ (buildEconomicsResponse i r m u).availableCount
          = ([(buildEconomicsResponse i r m u).indicators.inflation.available,
              (buildEconomicsResponse i r m u).indicators.mortgageRate.available,
              (buildEconomicsResponse i r m u).indicators.unemployment.available,
              (buildEconomicsResponse i r m u).indicators.interestRate.available].filter
              (fun b => b)).length := by
  intro i r m u
  cases i <;> cases r <;> cases m <;> cases u <;>
    simp [buildEconomicsResponse, availableSources]

/-- Claim C9, counterexample: the fetch classifier of
    src/api/earnings-analysis.js sends status 404 through the same generic
    provider-error branch as status 500, with no distinguished not-found
    outcome, while the classifier of src/api/economics.js does distinguish
    404 with a dedicated message. -/
theorem C9_notfound_counterexample :
    fetchClassifyEarningsAnalysis (TransportEvent.response 404 (BodyKind.parsable "x"))
        = FetchResult.fail 404 ("API error: " ++ toString (404 : ℕ))
    ∧ fetchClassifyEarningsAnalysis (TransportEvent.response 500 (BodyKind.parsable "x"))
        = FetchResult.fail 500 ("API error: " ++ toString (500 : ℕ))
    ∧ fetchClassifyEconomics (TransportEvent.response 404 (BodyKind.parsable "x"))
        = FetchResult.fail 404 "Endpoint not available"
    ∧ ("API error: " ++ toString (404 : ℕ)) ≠ "Endpoint not available" :=
  ⟨rfl, rfl, rfl, by decide⟩

/-- Claim C9 (amended): for both upstream clients, status 200 with
    parseable JSON resolves success with the payload, transport failures
    and timeouts reject, and every non-200 status resolves a provider
    failure carrying the status code; the economics client additionally
    distinguishes 404 with a dedicated message, while the
    earnings-analysis client reports 404 through the generic provider
    error branch; each classification consumes exactly one transport
    event, so neither client retries. -/
theorem C9_fetch_classification_amended :
    (∀ payload, fetchClassifyEconomics
        (TransportEvent.response 200 (BodyKind.parsable payload))
        = FetchResult.ok payload 200)
    ∧ (∀ payload, fetchClassifyEarningsAnalysis
        (TransportEvent.response 200 (BodyKind.parsable payload))
        = FetchResult.ok payload 200)
    ∧ (∀ b, fetchClassifyEconomics (TransportEvent.response 404 b)
        = FetchResult.fail 404 "Endpoint not available")
    ∧ (∀ s b, s ≠ 200 → s ≠ 404 → fetchClassifyEconomics (TransportEvent.response s b)
        = FetchResult.fail s ("API error: " ++ toString s))
    ∧ (∀ s b, s ≠ 200 → fetchClassifyEarningsAnalysis (TransportEvent.response s b)
        = FetchResult.fail s ("API error: " ++ toString s))
    ∧ fetchClassifyEconomics TransportEvent.networkFailure = FetchResult.thrown "Network error"
    ∧ fetchClassifyEarningsAnalysis TransportEvent.networkFailure
        = FetchResult.thrown "Network error"
    ∧ fetchClassifyEconomics TransportEvent.timedOut = FetchResult.thrown "Timeout"
    ∧ fetchClassifyEarningsAnalysis TransportEvent.timedOut = FetchResult.thrown "Timeout" := by
  refine ⟨fun p => rfl, fun p => rfl, fun b => rfl, ?_, ?_, rfl, rfl, rfl, rfl⟩
  · intro s b h1 h2
    simp [fetchClassifyEconomics, h1, h2]
  · intro s b h1
    simp [fetchClassifyEarningsAnalysis, h1]

/-- Witness for the amended C9 theorem at concrete statuses. -/
theorem C9_fetch_classification_amended_witness :
    fetchClassifyEconomics (TransportEvent.response 500 BodyKind.malformed)
        = FetchResult.fail 500 ("API error: " ++ toString (500 : ℕ))
    ∧ fetchClassifyEarningsAnalysis (TransportEvent.response 503 BodyKind.malformed)
        = FetchResult.fail 503 ("API error: " ++ toString (503 : ℕ)) :=
  ⟨C9_fetch_classification_amended.2.2.2.1 500 BodyKind.malformed (by decide) (by decide),
   C9_fetch_classification_amended.2.2.2.2.1 503 BodyKind.malformed (by decide)⟩

/-! Section 10: recommendation engine lemmas and claims C1, C2, C5. -/

/-- Equation lemma: the economic factor on a present indicators map. -/
theorem economicFactor_someInd (ind : EngineIndicators) :
    economicFactor (some ⟨some ind⟩)
      = if inflationContribution ind + unemploymentContribution ind > 0 then 1
        else if inflationContribution ind + unemploymentContribution ind < 0 then -1
        else 0 := rfl

/-- The score field of the engine result is the weighted sum of line 387. -/
theorem recFromFactors_score (f : Factors) :
    (recFromFactors f).score = (f.sentiment : ℚ) * (2/5) + (f.priceTrend : ℚ) * (3/10)
      + (f.economic : ℚ) * (3/10) := rfl

/-- Claim-side economic sub-score, spelled as the specification words it:
    available inflation below 3 contributes plus one half and above 5
    contributes minus one half; available unemployment below 5 contributes
    plus one half and above 6 contributes minus one half; unavailable or
    missing entries contribute nothing. -/
def claimEconSub (ind : EngineIndicators) : ℚ :=
  (match ind.inflation with
   | some e =>
     if e.available = true then
       (if jsNum e.value < 3 then (1:ℚ)/2 else 0) + (if 5 < jsNum e.value then -(1:ℚ)/2 else 0)
     else 0
   | none => 0)
  + (match ind.unemployment with
     | some e =>
       if e.available = true then
         (if jsNum e.value < 5 then (1:ℚ)/2 else 0) + (if 6 < jsNum e.value then -(1:ℚ)/2 else 0)
       else 0
     | none => 0)

/-- The inflation branch of the source equals the claim-side sum of the
    two threshold contributions. -/
theorem inflationContribution_eq_claim (ind : EngineIndicators) :
    inflationContribution ind
      = (match ind.inflation with
         | some e =>
           if e.available = true then
             (if jsNum e.value < 3 then (1:ℚ)/2 else 0)
               + (if 5 < jsNum e.value then -(1:ℚ)/2 else 0)
           else 0
         | none => 0) := by
  unfold inflationContribution
  cases hinf : ind.inflation with
  | none => rfl
  | some e =>
    by_cases ha : e.available = true
    · simp only [ha, if_true]
      split_ifs <;> linarith
    · simp [ha]

/-- The unemployment branch of the source equals the claim-side sum of the
    two threshold contributions. -/
theorem unemploymentContribution_eq_claim (ind : EngineIndicators) :
    unemploymentContribution ind
      = (match ind.unemployment with
         | some e =>
           if e.available = true then
             (if jsNum e.value < 5 then (1:ℚ)/2 else 0)
               + (if 6 < jsNum e.value then -(1:ℚ)/2 else 0)
           else 0
         | none => 0) := by
  unfold unemploymentContribution
  cases hun : ind.unemployment with
  | none => rfl
  | some e =>
    by_cases ha : e.available = true
    · simp only [ha, if_true]
      split_ifs <;> linarith
    · simp [ha]

/-- Claim C5: whenever an indicators map is supplied, the economic factor
    depends only on the inflation and unemployment entries; an unavailable
    entry behaves exactly like a missing one regardless of its value; the
    factor is the sign of the claim-side sub-score built from the stated
    thresholds; and inflation 6 available with unemployment unavailable
    gives factor -1 whatever the unavailable value and the other entries. -/
theorem C5_economic_factor :
    (∀ ind ind2 : EngineIndicators, ind.inflation = ind2.inflation →
        ind.unemployment = ind2.unemployment →
        economicFactor (some ⟨some ind⟩) = economicFactor (some ⟨some ind2⟩))
    ∧ (∀ (ind : EngineIndicators) (e : EngineIndicatorEntry), e.available = false →
        economicFactor (some ⟨some { ind with inflation := some e }⟩)
            = economicFactor (some ⟨some { ind with inflation := none }⟩)
        ∧ economicFactor (some ⟨some { ind with unemployment := some e }⟩)
            = economicFactor (some ⟨some { ind with unemployment := none }⟩))
    ∧ (∀ ind : EngineIndicators,
        economicFactor (some ⟨some ind⟩)
          = if 0 < claimEconSub ind then 1 else if claimEconSub ind < 0 then -1 else 0)
    ∧ (∀ (v : Option ℚ) (m i : Option EngineIndicatorEntry),
        economicFactor (some ⟨some ⟨some ⟨some 6, true⟩, some ⟨v, false⟩, m, i⟩⟩) = -1) := by
  have hsum : ∀ ind : EngineIndicators,
      inflationContribution ind + unemploymentContribution ind = claimEconSub ind := by
    intro ind
    rw [inflationContribution_eq_claim, unemploymentContribution_eq_claim]
    rfl
  refine ⟨?_, ?_, ?_, ?_⟩
  · intro ind ind2 h1 h2
    rw [economicFactor_someInd, economicFactor_someInd]
    rw [show inflationContribution ind = inflationContribution ind2 from by
          unfold inflationContribution; rw [h1],
        show unemploymentContribution ind = unemploymentContribution ind2 from by
          unfold unemploymentContribution; rw [h2]]
  · intro ind e he
    constructor
    · rw [economicFactor_someInd, economicFactor_someInd]
      rw [show inflationContribution { ind with inflation := some e }
            = inflationContribution { ind with inflation := none } from by
          unfold inflationContribution; simp [he],
        show unemploymentContribution { ind with inflation := some e }
            = unemploymentContribution { ind with inflation := none } from rfl]
    · rw [economicFactor_someInd, economicFactor_someInd]
      rw [show unemploymentContribution { ind with unemployment := some e }
            = unemploymentContribution { ind with unemployment := none } from by
          unfold unemploymentContribution; simp [he],
        show inflationContribution { ind with unemployment := some e }
            = inflationContribution { ind with unemployment := none } from rfl]
  · intro ind
    rw [economicFactor_someInd, hsum ind]
  · intro v m i
    rw [economicFactor_someInd]
    rw [show inflationContribution ⟨some ⟨some 6, true⟩, some ⟨v, false⟩, m, i⟩ = -(1/2) from by
          unfold inflationContribution
          norm_num [jsNum],
        show unemploymentContribution ⟨some ⟨some 6, true⟩, some ⟨v, false⟩, m, i⟩ = 0 from by
          unfold unemploymentContribution
          simp]
    norm_num

/-- Witness for C5: the hypotheses discharged at concrete indicator maps. -/
theorem C5_economic_factor_witness :
    economicFactor (some ⟨some ⟨some ⟨some 6, true⟩, some ⟨some 4, false⟩, none, none⟩⟩) = -1
    ∧ (⟨some 9, false⟩ : EngineIndicatorEntry).available = false
    ∧ economicFactor (some ⟨some { (⟨none, none, none, none⟩ : EngineIndicators) with
          inflation := some ⟨some 9, false⟩ }⟩)
        = economicFactor (some ⟨some { (⟨none, none, none, none⟩ : EngineIndicators) with
          inflation := none }⟩) :=
  ⟨C5_economic_factor.2.2.2 (some 4) none none,
   rfl,
   (C5_economic_factor.2.1 ⟨none, none, none, none⟩ ⟨some 9, false⟩ rfl).1⟩

/-! Section 11: sentiment aggregation claims C3 and C6. -/

/-- A string is empty exactly when its character list is empty. -/
theorem stringEqEmptyIff (s : String) : s = "" ↔ s.data = [] := by
  cases s with
  | mk d => simp [String.ext_iff]

/-- A concatenation is empty exactly when both parts are. -/
theorem appendEqEmptyIff (a b : String) : a ++ b = "" ↔ a = "" ∧ b = "" := by
  cases a with
  | mk d =>
    cases b with
    | mk e => simp [String.ext_iff]

/-- Joining a non-empty list of non-empty strings with spaces is
    non-empty. -/
theorem joinSpace_ne_empty : ∀ l : List String, l ≠ [] → (∀ s ∈ l, s ≠ "") →
    joinSpace l ≠ "" := by
  intro l hl h
  cases l with
  | nil => exact absurd rfl hl
  | cons s rest =>
    cases rest with
    | nil =>
      have hs := h s (List.mem_cons_self _ _)
      simpa [joinSpace] using hs
    | cons s2 r2 =>
      intro hcontra
      have hsplit2 : (s ++ " ") ++ joinSpace (s2 :: r2) = "" := hcontra
      rcases (appendEqEmptyIff _ _).mp hsplit2 with ⟨h1, _⟩
      rcases (appendEqEmptyIff _ _).mp h1 with ⟨_, h4⟩
      exact absurd h4 (by decide)

/-- The character list under the last-characters slice. -/
theorem lastChars_data (n : ℕ) (s : String) :
    (lastChars n s).data = s.data.drop (s.data.length - n) := rfl

/-- The last-1000-characters slice of a non-empty string is non-empty. -/
theorem lastChars_ne_empty {s : String} (hs : s ≠ "") : lastChars 1000 s ≠ "" := by
  intro hcontra
  have h2 : (lastChars 1000 s).data = ("" : String).data := congrArg String.data hcontra
  rw [lastChars_data] at h2
  have hd : s.data.drop (s.data.length - 1000) = [] := h2
  rw [List.drop_eq_nil_iff] at hd
  have hne : s.data ≠ [] := fun h => hs ((stringEqEmptyIff s).mpr h)
  have hpos : 0 < s.data.length := List.length_pos.mpr hne
  omega

/-- The raw transcript fallback is empty exactly when the raw transcript
    field is absent or the empty string. -/
theorem rawFallback_empty_iff (rec : TranscriptRec) :
    rawFallbackOf rec = "" ↔ (rec.transcript = none ∨ rec.transcript = some "") := by
  rcases rec with ⟨sp, tr⟩
  rcases tr with _ | s
  · simp [rawFallbackOf]
  · by_cases hs : s = ""
    · subst hs
      simp [rawFallbackOf]
    · have hred : rawFallbackOf ⟨sp, some s⟩ = if s ≠ "" then lastChars 1000 s else "" := rfl
      rw [hred, if_pos hs]
      simp only [Option.some.injEq]
      constructor
      · intro h
        exact absurd h (lastChars_ne_empty hs)
      · intro h
        rcases h with h | h
        · exact absurd h (by simp)
        · exact absurd h hs

/-- Every text the executive filter keeps is non-empty. -/
theorem execTexts_mem_ne_empty (items : List (Option SpeakerTurn)) :
    ∀ s ∈ execTexts items, s ≠ "" := by
  intro s hs
  unfold execTexts at hs
  rw [List.mem_filterMap] at hs
  obtain ⟨it, hit, heq⟩ := hs
  rcases it with _ | ⟨role, text⟩
  · simp at heq
  · rcases role with _ | r
    · simp at heq
    · rcases text with _ | tx
      · by_cases hq : r ≠ "" ∧ roleQualifies r = true <;> simp [hq] at heq
      · by_cases hq : r ≠ "" ∧ roleQualifies r = true <;> by_cases htx : tx ≠ "" <;>
          simp [hq, htx] at heq
        exact heq ▸ htx

/-- The relevant slice of a non-empty statement list is non-empty. -/
theorem relevantOf_ne_nil {l : List String} (hl : l ≠ []) : relevantOf l ≠ [] := by
  unfold relevantOf
  split_ifs with h
  · intro hcontra
    rw [List.drop_eq_nil_iff] at hcontra
    omega
  · exact hl

/-- The relevant slice only contains statements from the full list. -/
theorem relevantOf_subset {l : List String} : ∀ s ∈ relevantOf l, s ∈ l := by
  unfold relevantOf
  split_ifs with h
  · intro s hs
    exact List.drop_subset _ _ hs
  · intro s hs
    exact hs

/-- The error-aware executive filter never errors and agrees with the plain
    one. -/
theorem execTextsChecked_ok (items : List (Option SpeakerTurn)) :
    execTextsChecked items = Except.ok (execTexts items) := by
  induction items with
  | nil => rfl
  | cons it rest ih =>
    rcases it with _ | ⟨role, text⟩
    · simp [execTextsChecked, execTexts, List.filterMap_cons, ih]
    · rcases role with _ | r
      · simp [execTextsChecked, execTexts, List.filterMap_cons, ih]
      · by_cases hr : r = ""
        · subst hr
          simp [execTextsChecked, execTexts, List.filterMap_cons, ih, jsGetStr]
        · by_cases hq : roleQualifies r = true
          · rcases text with _ | tx
            · simp [execTextsChecked, execTexts, List.filterMap_cons, ih, jsGetStr, hr, hq]
            · by_cases htx : tx = ""
              · subst htx
                simp [execTextsChecked, execTexts, List.filterMap_cons, ih, jsGetStr, hr, hq]
              · simp [execTextsChecked, execTexts, List.filterMap_cons, ih, jsGetStr, hr, hq,
                  htx]
          · simp [execTextsChecked, execTexts, List.filterMap_cons, ih, jsGetStr, hr, hq]

/-- Equation lemma: the plain extractor on a present record. -/
theorem extractKeyStatements_some (rec : TranscriptRec) :
    extractKeyStatements (some rec)
      = match parsedSplitItems rec.transcript_split with
        | some items =>
          if items.length > 0 then
            if joinSpace (relevantOf (execTexts items)) ≠ "" then
              joinSpace (relevantOf (execTexts items))
            else rawFallbackOf rec
          else rawFallbackOf rec
        | none => rawFallbackOf rec := rfl

/-- Equation lemma: the error-aware extractor on a present record. -/
theorem extractKeyStatementsChecked_some (rec : TranscriptRec) :
    extractKeyStatementsChecked (some rec)
      = match parsedSplitItems rec.transcript_split with
        | some items =>
          if items.length > 0 then
            match execTextsChecked items with
            | Except.error e => Except.error e
            | Except.ok executive =>
              if joinSpace (relevantOf executive) ≠ "" then
                Except.ok (joinSpace (relevantOf executive))
              else Except.ok (rawFallbackOf rec)
          else Except.ok (rawFallbackOf rec)
        | none => Except.ok (rawFallbackOf rec) := rfl

/-- The error-aware extractor never errors and agrees with the plain
    extractor. -/
theorem extractKeyStatementsChecked_ok (t : Option TranscriptRec) :
    extractKeyStatementsChecked t = Except.ok (extractKeyStatements t) := by
  cases t with
  | none => rfl
  | some rec =>
    rw [extractKeyStatementsChecked_some, extractKeyStatements_some]
    cases hsplit : parsedSplitItems rec.transcript_split with
    | none => rfl
    | some items =>
      dsimp only
      by_cases hlen : items.length > 0
      · rw [if_pos hlen, if_pos hlen, execTextsChecked_ok items]
        dsimp only
        split_ifs <;> rfl
      · rw [if_neg hlen, if_neg hlen]

/-- Claim C8: the transcript extractor never raises — its error-aware
    rendering always returns ok and agrees with the plain function — a null
    transcript, an unparseable or non-array transcript_split and missing
    fields all degrade to the raw-text fallback, and the extractor returns
    the empty string exactly when no executive statement text qualifies and
    the raw transcript field holds no text. -/
theorem C8_extract_graceful :
    (∀ t, extractKeyStatementsChecked t = Except.ok (extractKeyStatements t))
    ∧ extractKeyStatements none = ""
    ∧ (∀ tr : Option String,
        extractKeyStatements (some ⟨SplitField.absent, tr⟩)
            = rawFallbackOf ⟨SplitField.absent, tr⟩
        ∧ extractKeyStatements (some ⟨SplitField.strBad, tr⟩)
            = rawFallbackOf ⟨SplitField.strBad, tr⟩
        ∧ extractKeyStatements (some ⟨SplitField.strOther, tr⟩)
            = rawFallbackOf ⟨SplitField.strOther, tr⟩
        ∧ extractKeyStatements (some ⟨SplitField.otherVal, tr⟩)
            = rawFallbackOf ⟨SplitField.otherVal, tr⟩)
    ∧ (∀ rec : TranscriptRec,
        extractKeyStatements (some rec) = ""
          ↔ execTexts ((parsedSplitItems rec.transcript_split).getD []) = []
            ∧ (rec.transcript = none ∨ rec.transcript = some "")) := by
  refine ⟨extractKeyStatementsChecked_ok, rfl, fun tr => ⟨rfl, rfl, rfl, rfl⟩, ?_⟩
  intro rec
  rw [extractKeyStatements_some]
  cases hsplit : parsedSplitItems rec.transcript_split with
  | none =>
    dsimp only
    simpa [execTexts] using rawFallback_empty_iff rec
  | some items =>
    dsimp only [Option.getD]
    by_cases hlen : items.length > 0
    · rw [if_pos hlen]
      by_cases hexec : execTexts items = []
      · rw [hexec]
        have h0 : joinSpace (relevantOf ([] : List String)) = "" := rfl
        rw [if_neg (fun hc => hc h0)]
        simpa [hexec] using rawFallback_empty_iff rec
      · have hne : joinSpace (relevantOf (execTexts items)) ≠ "" :=
          joinSpace_ne_empty _ (relevantOf_ne_nil hexec)
            (fun s hs => execTexts_mem_ne_empty items s (relevantOf_subset s hs))
        rw [if_pos hne]
        constructor
        · intro h
          exact absurd h hne
        · intro hc
          exact absurd hc.1 hexec
    · rw [if_neg hlen]
      have hitems : items = [] := by
        cases items with
        | nil => rfl
        | cons a b => exact absurd (by simp) hlen
      subst hitems
      simpa [execTexts] using rawFallback_empty_iff rec
